import Mathlib

/-!
Shallow embedding of the `resources` package (Kubernetes resource wrappers
for Deployment, DaemonSet and ClusterRole) and proofs about its lifecycle
operations: Apply (patch-or-create), Get, Delete, Update, Ensure (claims),
the paginated Listers and the per-kind ComputeStatus functions.

Modelling conventions:
- The Kubernetes client (`v1.DeploymentInterface` etc.) is a record of
  response functions; each lifecycle operation returns, alongside its
  result and the receiver's new body, the list of orchestrator calls it
  issued, so that call-counting properties can be stated.
- Wire encoding (`runtime.Encode`) is modelled as a fallible function in
  the client record returning the encoded data (represented by a body
  value, since the encoding is lossless).
- Kubernetes status errors are classified by `KErr` (mirroring
  `k8serrors.IsNotFound` / `k8serrors.IsConflict`); the errors produced
  by the package (`errors.NewNotFound`, `errors.Annotatef(errConflict, ...)`,
  `errors.AlreadyExistsf`, `errors.Trace`) are `ResErr`.
- A Go pointer held inside a body (the `*metav1.Time` deletion timestamp
  of `ObjectMeta`) is modelled as a pair `(address, value)`; the address
  records pointer identity. No code in this package ever writes through
  that pointer (bodies are only ever replaced wholesale), so carrying the
  pointed-to value alongside the address is sound.
- Machine integers (`int32` replica counters) are modelled as `Int`; no
  arithmetic is performed on them, only equality comparison, so overflow
  is not involved.
-/

namespace Resources

/-- Classification of errors returned by the orchestrator client, as
observed through `k8serrors.IsNotFound` and `k8serrors.IsConflict`. -/
inductive KErr where
  | notFound : KErr
  | conflict : KErr
  | other : Nat → KErr
deriving DecidableEq, Repr

/-- Errors produced by the `resources` package (juju `errors` values):
`notFound` is `errors.NewNotFound(err, ctx)`; `conflictAnnotated desc name`
is `errors.Annotatef(errConflict, "<desc> %q", name)` (the ConflictError);
`alreadyExists` is `errors.AlreadyExistsf`; `tracedK` is `errors.Trace`
of an underlying client error; `encodeFailed` is `errors.Trace` of a
`runtime.Encode` failure; `claimFailed` is an error returned by a claim's
assertion; `annotated` is `errors.Annotatef(err, msg)` wrapping a cause. -/
inductive ResErr where
  | notFound : String → ResErr
  | conflictAnnotated : String → String → ResErr
  | alreadyExists : String → ResErr
  | tracedK : KErr → ResErr
  | encodeFailed : Nat → ResErr
  | claimFailed : Nat → ResErr
  | annotated : String → ResErr → ResErr
deriving DecidableEq, Repr

/-- Models `errors.IsNotFound`: true for a not-found error, looking through
annotation wrappers (juju's `Annotatef` preserves the error cause). -/
def ResErr.isNotFound : ResErr → Bool
  | .notFound _ => true
  | .annotated _ c => ResErr.isNotFound c
  | _ => false

/-- Whether an error is the ConflictError produced by Apply
(`errors.Annotatef(errConflict, ...)`), looking through annotations. -/
def ResErr.isConflictError : ResErr → Bool
  | .conflictAnnotated _ _ => true
  | .annotated _ c => ResErr.isConflictError c
  | _ => false

/-- Models `status.Status` from `core/status`: the juju domain health states.
Only `active`, `waiting` and `terminated` are used by this package, but
the type has further inhabitants, so "no other state is returned" is a
real statement. -/
inductive Status where
  | active : Status
  | waiting : Status
  | terminated : Status
  | blocked : Status
  | maintenance : Status
  | unknownStatus : Status
deriving DecidableEq, Repr

/-- Models `ID`: a comparable identity `{Kind, Name, Namespace}`. The Go field
`Namespace` is spelled `nspace` (`namespace` is a Lean keyword). -/
structure ID where
  kind : String
  name : String
  nspace : String
deriving DecidableEq, Repr

/-- Body of an `appsv1.Deployment` as used by this package: object meta
(name, namespace, deletion timestamp pointer) plus the status counters
read by `ComputeStatus`. `deletionTimestamp` is the `*metav1.Time`
pointer: `none` is nil, `some (a, t)` is a pointer with heap address `a`
to a time value `t`. `payload` stands for all remaining fields (spec,
labels, ...), opaque to this package. -/
structure DeploymentBody where
  name : String
  nspace : String
  deletionTimestamp : Option (Nat × Int)
  readyReplicas : Int
  replicas : Int
  payload : Nat
deriving DecidableEq, Repr

/-- Body of an `appsv1.DaemonSet`: like `DeploymentBody` but with the
daemon-set readiness counters. -/
structure DaemonSetBody where
  name : String
  nspace : String
  deletionTimestamp : Option (Nat × Int)
  numberReady : Int
  desiredNumberScheduled : Int
  payload : Nat
deriving DecidableEq, Repr

/-- Body of an `rbacv1.ClusterRole`. Cluster-scoped, but `ObjectMeta`
still carries a `Namespace` field, which `ID()` reads. `payload` stands
for the rules and all other fields. -/
structure ClusterRoleBody where
  name : String
  nspace : String
  deletionTimestamp : Option (Nat × Int)
  payload : Nat
deriving DecidableEq, Repr

/-- Go zero value `appsv1.Deployment{}`. -/
def DeploymentBody.goZero : DeploymentBody :=
  { name := "", nspace := "", deletionTimestamp := none
    readyReplicas := 0, replicas := 0, payload := 0 }

/-- Go zero value `appsv1.DaemonSet{}`. -/
def DaemonSetBody.goZero : DaemonSetBody :=
  { name := "", nspace := "", deletionTimestamp := none
    numberReady := 0, desiredNumberScheduled := 0, payload := 0 }

/-- Go zero value `rbacv1.ClusterRole{}`. -/
def ClusterRoleBody.goZero : ClusterRoleBody :=
  { name := "", nspace := "", deletionTimestamp := none, payload := 0 }

/-- Models `NewDeployment(client, namespace, name, in)`: defaults a nil body to
the zero value, then `in.SetName(name); in.SetNamespace(namespace)`.
The client handle is passed separately to each operation in this
embedding, so the constructor returns the stamped body. -/
def NewDeployment (nspace : String) (name : String)
    (input : Option DeploymentBody) : DeploymentBody :=
  let b := input.getD DeploymentBody.goZero
  { b with name := name, nspace := nspace }

/-- Models `NewDaemonSet(client, namespace, name, in)`. -/
def NewDaemonSet (nspace : String) (name : String)
    (input : Option DaemonSetBody) : DaemonSetBody :=
  let b := input.getD DaemonSetBody.goZero
  { b with name := name, nspace := nspace }

/-- Models `NewClusterRole(client, name, in)`: there is no namespace argument and
only `in.SetName(name)` is called; the body's namespace is left as-is. -/
def NewClusterRole (name : String)
    (input : Option ClusterRoleBody) : ClusterRoleBody :=
  let b := input.getD ClusterRoleBody.goZero
  { b with name := name }

/-- Models `(*Deployment).ID()`: `ID{"Deployment", d.Name, d.Namespace}`. -/
def Deployment.ID (d : DeploymentBody) : ID := ⟨"Deployment", d.name, d.nspace⟩

/-- Models `(*DaemonSet).ID()`. -/
def DaemonSet.ID (ds : DaemonSetBody) : ID := ⟨"DaemonSet", ds.name, ds.nspace⟩

/-- Models `(*ClusterRole).ID()`: `ID{"ClusterRole", r.Name, r.Namespace}`. -/
def ClusterRole.ID (r : ClusterRoleBody) : ID := ⟨"ClusterRole", r.name, r.nspace⟩

/-- Models `(*Deployment).Clone()`: `clone := *d; return &clone` — a Go struct
assignment, copying every field value; pointer-typed sub-fields (the
`(address, value)` deletion-timestamp pair) are copied as pointers, so
the pointed-to cell is shared between original and clone. At the value
level of this embedding that copy is the identity. -/
def Deployment.Clone (d : DeploymentBody) : DeploymentBody := d

/-- Models `(*DaemonSet).Clone()`. -/
def DaemonSet.Clone (ds : DaemonSetBody) : DaemonSetBody := ds

/-- Models `(*ClusterRole).Clone()`. -/
def ClusterRole.Clone (r : ClusterRoleBody) : ClusterRoleBody := r

/-- Models `(*Deployment).ComputeStatus(ctx, now)`: Terminated with the deletion
timestamp's time if the deletion-timestamp pointer is non-nil; Active at
`now` if `readyReplicas == replicas`; else Waiting at `now`. The Go
function also returns an error which is always nil; it is omitted. -/
def Deployment.ComputeStatus (d : DeploymentBody) (now : Int) :
    String × Status × Int :=
  match d.deletionTimestamp with
  | some ts => ("", Status.terminated, ts.2)
  | none =>
    if d.readyReplicas = d.replicas then ("", Status.active, now)
    else ("", Status.waiting, now)

/-- Models `(*DaemonSet).ComputeStatus(ctx, now)`: readiness counters are
`NumberReady` vs `DesiredNumberScheduled`. -/
def DaemonSet.ComputeStatus (ds : DaemonSetBody) (now : Int) :
    String × Status × Int :=
  match ds.deletionTimestamp with
  | some ts => ("", Status.terminated, ts.2)
  | none =>
    if ds.numberReady = ds.desiredNumberScheduled then ("", Status.active, now)
    else ("", Status.waiting, now)

/-- Models `(*ClusterRole).ComputeStatus(_, now)`: no readiness counters; Active
at `now` unless a deletion timestamp is present. -/
def ClusterRole.ComputeStatus (r : ClusterRoleBody) (now : Int) :
    String × Status × Int :=
  match r.deletionTimestamp with
  | some ts => ("", Status.terminated, ts.2)
  | none => ("", Status.active, now)

/-- The orchestrator client for one kind: the response behaviour of each
endpoint used by the package, plus the wire encoder (`runtime.Encode`,
external to the package, fallible). `list` takes the continuation token
from the `ListOptions` (the only `ListOptions` field this package reads
or writes) and returns the page items and the next continuation token. -/
structure Client (B : Type) where
  encode : B → Except Nat B
  patch : String → B → Except KErr B
  create : B → Except KErr B
  get : String → Except KErr B
  update : B → Except KErr B
  delete : String → Except KErr Unit
  list : String → Except KErr (List B × String)

/-- One orchestrator call issued by a lifecycle operation. -/
inductive Call (B : Type) where
  | patch : String → B → Call B
  | create : B → Call B
  | get : String → Call B
  | update : B → Call B
  | delete : String → Call B
  | list : String → Call B
deriving DecidableEq, Repr

/-- Whether a call mutates server state. -/
def Call.isMutating {B : Type} : Call B → Bool
  | .patch _ _ => true
  | .create _ => true
  | .update _ => true
  | .delete _ => true
  | .get _ => false
  | .list _ => false

/-- The per-kind data every method uses: the name accessor and the two
kind-specific message strings (`"deployment"`, `"k8s deployment for
deletion"`, ...). -/
structure KindOps (B : Type) where
  name : B → String
  conflictDesc : String
  deleteCtx : String

def deploymentOps : KindOps DeploymentBody :=
  ⟨DeploymentBody.name, "deployment", "k8s deployment for deletion"⟩

def daemonSetOps : KindOps DaemonSetBody :=
  ⟨DaemonSetBody.name, "daemon set", "k8s daemon set for deletion"⟩

def clusterRoleOps : KindOps ClusterRoleBody :=
  ⟨ClusterRoleBody.name, "cluster role", "k8s cluster role for deletion"⟩

/-- The shared `Apply` body (`Deployment.Apply`, `DaemonSet.Apply` and
`ClusterRole.Apply` are textually identical in the source up to the kind
strings): encode the body; issue a strategic-merge patch by name; on a
not-found patch error, issue a create instead; map a conflict (from
either call) to the annotated ConflictError; trace any other error; on
success, replace the local body with the server's response. Returns
(result, new body, calls issued). -/
def applyOp {B : Type} (cl : Client B) (k : KindOps B) (b : B) :
    Except ResErr Unit × B × List (Call B) :=
  match cl.encode b with
  | .error code => (.error (.encodeFailed code), b, [])
  | .ok data =>
    match cl.patch (k.name b) data with
    | .error .notFound =>
      match cl.create b with
      | .error .conflict =>
        (.error (.conflictAnnotated k.conflictDesc (k.name b)), b,
          [.patch (k.name b) data, .create b])
      | .error e =>
        (.error (.tracedK e), b, [.patch (k.name b) data, .create b])
      | .ok res => (.ok (), res, [.patch (k.name b) data, .create b])
    | .error .conflict =>
      (.error (.conflictAnnotated k.conflictDesc (k.name b)), b,
        [.patch (k.name b) data])
    | .error e => (.error (.tracedK e), b, [.patch (k.name b) data])
    | .ok res => (.ok (), res, [.patch (k.name b) data])

/-- The shared `Get` body: not-found maps to `errors.NewNotFound(err,
"k8s")`, other errors are traced, success overwrites the local body. -/
def getOp {B : Type} (cl : Client B) (k : KindOps B) (b : B) :
    Except ResErr Unit × B × List (Call B) :=
  match cl.get (k.name b) with
  | .error .notFound => (.error (.notFound "k8s"), b, [.get (k.name b)])
  | .error e => (.error (.tracedK e), b, [.get (k.name b)])
  | .ok res => (.ok (), res, [.get (k.name b)])

/-- The shared `Delete` body: delete by name with the default propagation
policy; not-found maps to `errors.NewNotFound` with the kind's message;
other errors are traced (`errors.Trace(nil)` is nil). -/
def deleteOp {B : Type} (cl : Client B) (k : KindOps B) (b : B) :
    Except ResErr Unit × List (Call B) :=
  match cl.delete (k.name b) with
  | .error .notFound => (.error (.notFound k.deleteCtx), [.delete (k.name b)])
  | .error e => (.error (.tracedK e), [.delete (k.name b)])
  | .ok _ => (.ok (), [.delete (k.name b)])

/-- Models `(*ClusterRole).Update`: full-body update; not-found maps to
`errors.NewNotFound(err, "updating cluster role")` (no create fallback and
no conflict mapping); other errors are traced; success overwrites the
local body with the server's response. -/
def updateOp {B : Type} (cl : Client B) (b : B) :
    Except ResErr Unit × B × List (Call B) :=
  match cl.update b with
  | .error .notFound =>
    (.error (.notFound "updating cluster role"), b, [.update b])
  | .error e => (.error (.tracedK e), b, [.update b])
  | .ok out => (.ok (), out, [.update b])

/-- Models `(*Deployment).Apply(ctx)`. -/
def Deployment.Apply (cl : Client DeploymentBody) (d : DeploymentBody) :
    Except ResErr Unit × DeploymentBody × List (Call DeploymentBody) :=
  applyOp cl deploymentOps d

/-- Models `(*Deployment).Get(ctx)`. -/
def Deployment.Get (cl : Client DeploymentBody) (d : DeploymentBody) :
    Except ResErr Unit × DeploymentBody × List (Call DeploymentBody) :=
  getOp cl deploymentOps d

/-- Models `(*Deployment).Delete(ctx)`. -/
def Deployment.Delete (cl : Client DeploymentBody) (d : DeploymentBody) :
    Except ResErr Unit × List (Call DeploymentBody) :=
  deleteOp cl deploymentOps d

/-- Models `(*DaemonSet).Apply(ctx)`. -/
def DaemonSet.Apply (cl : Client DaemonSetBody) (ds : DaemonSetBody) :
    Except ResErr Unit × DaemonSetBody × List (Call DaemonSetBody) :=
  applyOp cl daemonSetOps ds

/-- Models `(*DaemonSet).Get(ctx)`. -/
def DaemonSet.Get (cl : Client DaemonSetBody) (ds : DaemonSetBody) :
    Except ResErr Unit × DaemonSetBody × List (Call DaemonSetBody) :=
  getOp cl daemonSetOps ds

/-- Models `(*DaemonSet).Delete(ctx)`. -/
def DaemonSet.Delete (cl : Client DaemonSetBody) (ds : DaemonSetBody) :
    Except ResErr Unit × List (Call DaemonSetBody) :=
  deleteOp cl daemonSetOps ds

/-- Models `(*ClusterRole).Apply(ctx)`. -/
def ClusterRole.Apply (cl : Client ClusterRoleBody) (r : ClusterRoleBody) :
    Except ResErr Unit × ClusterRoleBody × List (Call ClusterRoleBody) :=
  applyOp cl clusterRoleOps r

/-- Models `(*ClusterRole).Get(ctx)`. -/
def ClusterRole.Get (cl : Client ClusterRoleBody) (r : ClusterRoleBody) :
    Except ResErr Unit × ClusterRoleBody × List (Call ClusterRoleBody) :=
  getOp cl clusterRoleOps r

/-- Models `(*ClusterRole).Delete(ctx)`. -/
def ClusterRole.Delete (cl : Client ClusterRoleBody) (r : ClusterRoleBody) :
    Except ResErr Unit × List (Call ClusterRoleBody) :=
  deleteOp cl clusterRoleOps r

/-- Models `(*ClusterRole).Update(ctx)`. -/
def ClusterRole.Update (cl : Client ClusterRoleBody) (r : ClusterRoleBody) :
    Except ResErr Unit × ClusterRoleBody × List (Call ClusterRoleBody) :=
  updateOp cl r

/-- Models `(*Deployment).DeleteOrphan(ctx)`: a deliberate no-op. -/
def Deployment.DeleteOrphan : Except ResErr Unit := .ok ()

/-- Models `(*DaemonSet).DeleteOrphan(ctx)`: a deliberate no-op. -/
def DaemonSet.DeleteOrphan : Except ResErr Unit := .ok ()

/-- Models `(*ClusterRole).DeleteOrphan(ctx)`: a deliberate no-op. -/
def ClusterRole.DeleteOrphan : Except ResErr Unit := .ok ()

/-- A `Claim`: a predicate over a live object returning `(satisfied,
error)`; the error (if any) is represented by a code. -/
def Claim (B : Type) := B → Bool × Option Nat

/-- Modelled from the spec: `RunClaims(claims...).Assert(obj)` (the
ClaimRunner) is not part of the excerpted source; per the spec it
"composes zero or more Claims and yields a single pass/fail verdict".
Claims are evaluated in order; a claim error or a failed claim stops the
run with a `false` verdict; with no claims the verdict is `true`. -/
def runClaimsAssert {B : Type} (claims : List (Claim B)) (obj : B) :
    Bool × Option Nat :=
  match claims with
  | [] => (true, none)
  | c :: rest =>
    match c obj with
    | (_, some e) => (false, some e)
    | (false, none) => (false, none)
    | (true, none) => runClaimsAssert rest obj

/-- A rollback closure registered by `Ensure`: `func() { _ = r.Delete(ctx) }`,
a delete of the receiver (by its name) to be invoked by the caller when a
later step of a larger transaction fails. -/
inductive Cleanup where
  | deleteByName : String → Cleanup
deriving DecidableEq, Repr

/-- Decidable equality for `Except` results, so that concrete runs can be
checked by `decide`. -/
instance {ε α : Type} [DecidableEq ε] [DecidableEq α] :
    DecidableEq (Except ε α) := fun x y =>
  match x, y with
  | .ok a, .ok b =>
    if h : a = b then .isTrue (by rw [h])
    else .isFalse (by intro hc; cases hc; exact h rfl)
  | .error a, .error b =>
    if h : a = b then .isTrue (by rw [h])
    else .isFalse (by intro hc; cases hc; exact h rfl)
  | .ok _, .error _ => .isFalse (by intro hc; cases hc)
  | .error _, .ok _ => .isFalse (by intro hc; cases hc)

/-- The outcome of `Ensure`: the Go return values `([]func(), error)`,
plus the receiver's body after the call and the orchestrator calls
issued (including the initial existence `Get`). -/
structure EnsureResult (B : Type) where
  cleanups : List Cleanup
  result : Except ResErr Unit
  body : B
  calls : List (Call B)
deriving DecidableEq, Repr

/-- Models `(*ClusterRole).Ensure(ctx, claims...)`:
`existing := ClusterRole{r.client, r.ClusterRole}; err := existing.Get(ctx)`
(a struct copy, so `Get` refreshes `existing`, not `r`); if the Get
succeeded the claims are asserted against the fetched body; a non-not-found
error aborts annotated with `"checking for existing cluster role %q"`
(using `existing`'s — possibly refreshed — name); a failed claim aborts
with `errors.AlreadyExistsf("cluster role %q not controlled by juju",
r.Name)`; otherwise the delete rollback closure is appended to the
cleanup list and then either `r.Apply` (when the Get reported not-found)
or `r.Update` is performed, its error returned together with the cleanup
list. -/
def ClusterRole.Ensure (cl : Client ClusterRoleBody)
    (claims : List (Claim ClusterRoleBody)) (r : ClusterRoleBody) :
    EnsureResult ClusterRoleBody :=
  let g := getOp cl clusterRoleOps r
  let existingBody := g.2.1
  let hc : Bool × Option ResErr :=
    match g.1 with
    | .ok _ =>
      let a := runClaimsAssert claims existingBody
      (a.1, a.2.map ResErr.claimFailed)
    | .error e => (true, some e)
  match hc.2 with
  | some e =>
    if ¬ e.isNotFound then
      ⟨[], .error (.annotated
        ("checking for existing cluster role " ++ existingBody.name) e),
        r, g.2.2⟩
    else if ¬ hc.1 then
      ⟨[], .error (.alreadyExists
        ("cluster role " ++ r.name ++ " not controlled by juju")),
        r, g.2.2⟩
    else
      let a := applyOp cl clusterRoleOps r
      ⟨[Cleanup.deleteByName r.name], a.1, a.2.1, g.2.2 ++ a.2.2⟩
  | none =>
    if ¬ hc.1 then
      ⟨[], .error (.alreadyExists
        ("cluster role " ++ r.name ++ " not controlled by juju")),
        r, g.2.2⟩
    else
      let u := updateOp cl r
      ⟨[Cleanup.deleteByName r.name], u.1, u.2.1, g.2.2 ++ u.2.2⟩

/-- The shared Lister loop (`for { res, err := client.List(ctx, opts); ... }`):
issue a list call with the current continuation token; an error aborts
the whole listing with that error traced and no items; otherwise the
page's items are wrapped and accumulated, and the loop stops when the
returned continuation token is empty, else repeats with that token.
The Go loop is unbounded, so the embedding takes a fuel bound; `none`
means the fuel was exhausted before the loop terminated. -/
def listLoop {B : Type} (cl : Client B) (wrap : B → B) :
    Nat → String → List B → Option (Except ResErr (List B))
  | 0, _, _ => none
  | fuel + 1, token, acc =>
    match cl.list token with
    | .error e => some (.error (.tracedK e))
    | .ok (pageItems, cont) =>
      let acc2 := acc ++ pageItems.map wrap
      if cont = "" then some (.ok acc2)
      else listLoop cl wrap fuel cont acc2

/-- Models `ListDeployments(ctx, client, namespace, opts)`: each item is wrapped
by `*NewDeployment(client, namespace, item.Name, &item)`; `token` is the
`Continue` field of the supplied `ListOptions` (its Go zero value is
`""`). -/
def ListDeployments (cl : Client DeploymentBody) (nspace : String)
    (fuel : Nat) (token : String) :
    Option (Except ResErr (List DeploymentBody)) :=
  listLoop cl (fun item => NewDeployment nspace item.name (some item))
    fuel token []

/-- Models `ListDaemonSets(ctx, client, namespace, opts)`. -/
def ListDaemonSets (cl : Client DaemonSetBody) (nspace : String)
    (fuel : Nat) (token : String) :
    Option (Except ResErr (List DaemonSetBody)) :=
  listLoop cl (fun item => NewDaemonSet nspace item.name (some item))
    fuel token []

/-- Models `ListClusterRoles(ctx, client, opts)`: wrapped by
`*NewClusterRole(client, item.Name, &item)` (no namespace). -/
def ListClusterRoles (cl : Client ClusterRoleBody)
    (fuel : Nat) (token : String) :
    Option (Except ResErr (List ClusterRoleBody)) :=
  listLoop cl (fun item => NewClusterRole item.name (some item))
    fuel token []

/-- The continuation token the canonical paginated server hands out for
page `i`: `i` copies of `'c'` (so page 0 is addressed by the empty
initial token). Tokens are opaque to the lister; only their equality to
`""` matters. -/
def pageToken (i : Nat) : String := String.mk (List.replicate i 'c')

/-- A canonical paginated list endpoint serving the given pages in order,
chained by `pageToken` continuation tokens and terminated by an empty
token on the last page; a page may itself be an error response. -/
def chainListFun {B : Type} (pages : List (Except KErr (List B)))
    (tok : String) : Except KErr (List B × String) :=
  match pages.get? tok.length with
  | none => .error (.other 0)
  | some (.error e) => .error e
  | some (.ok items) =>
    .ok (items, if tok.length + 1 = pages.length then "" else pageToken (tok.length + 1))

/-- A client whose list endpoint is the given function; the other
endpoints are never used by the listers. -/
def listOnlyClient {B : Type} (f : String → Except KErr (List B × String)) :
    Client B :=
  { encode := fun b => .ok b
    patch := fun _ _ => .error (.other 0)
    create := fun _ => .error (.other 0)
    get := fun _ => .error (.other 0)
    update := fun _ => .error (.other 0)
    delete := fun _ => .error (.other 0)
    list := f }

/-- Specification-side fold of a page sequence: concatenate the wrapped
items of the pages in order; the first error page aborts with that error
and no items. -/
def pagesResult {B : Type} (wrap : B → B) :
    List B → List (Except KErr (List B)) → Except ResErr (List B)
  | acc, [] => .ok acc
  | _, .error e :: _ => .error (.tracedK e)
  | acc, .ok items :: rest => pagesResult wrap (acc ++ items.map wrap) rest

/-- Whether an operation result is the Apply-style ConflictError. -/
def returnsConflictError : Except ResErr Unit → Bool
  | .error e => e.isConflictError
  | .ok _ => false

/-- Two bodies share a Go pointer when their deletion-timestamp fields
hold the same heap address (possibly pointing at the same cell). The
spec's "fully distinct body" is the negation of this. -/
def ptrShared (b1 b2 : DeploymentBody) : Prop :=
  ∃ a t u, b1.deletionTimestamp = some (a, t) ∧ b2.deletionTimestamp = some (a, u)

/- ------------------------------------------------------------------ -/
/- Helper lemmas shared by the claim theorems.                         -/
/- ------------------------------------------------------------------ -/

theorem applyOp_patch_ok {B : Type} (cl : Client B) (k : KindOps B)
    (b data out : B) (henc : cl.encode b = .ok data)
    (hp : cl.patch (k.name b) data = .ok out) :
    applyOp cl k b = (.ok (), out, [.patch (k.name b) data]) := by
  simp [applyOp, henc, hp]

theorem applyOp_patch_notFound_create_ok {B : Type} (cl : Client B)
    (k : KindOps B) (b data out : B) (henc : cl.encode b = .ok data)
    (hp : cl.patch (k.name b) data = .error .notFound)
    (hc : cl.create b = .ok out) :
    applyOp cl k b = (.ok (), out, [.patch (k.name b) data, .create b]) := by
  simp [applyOp, henc, hp, hc]

theorem applyOp_patch_notFound_calls {B : Type} (cl : Client B)
    (k : KindOps B) (b data : B) (henc : cl.encode b = .ok data)
    (hp : cl.patch (k.name b) data = .error .notFound) :
    (applyOp cl k b).2.2 = [.patch (k.name b) data, .create b] := by
  cases hc : cl.create b with
  | ok out => simp [applyOp, henc, hp, hc]
  | error e => cases e <;> simp [applyOp, henc, hp, hc]

theorem applyOp_patch_err_calls {B : Type} (cl : Client B)
    (k : KindOps B) (b data : B) (e : KErr) (henc : cl.encode b = .ok data)
    (hne : e ≠ KErr.notFound) (hp : cl.patch (k.name b) data = .error e) :
    (applyOp cl k b).2.2 = [.patch (k.name b) data] := by
  cases e with
  | notFound => exact absurd rfl hne
  | conflict => simp [applyOp, henc, hp]
  | other c => simp [applyOp, henc, hp]

theorem applyOp_head_call {B : Type} (cl : Client B) (k : KindOps B)
    (b data : B) (henc : cl.encode b = .ok data) :
    (applyOp cl k b).2.2.head? = some (.patch (k.name b) data) := by
  cases hp : cl.patch (k.name b) data with
  | ok out => simp [applyOp, henc, hp]
  | error e =>
    cases e with
    | notFound =>
      cases hc : cl.create b with
      | ok out => simp [applyOp, henc, hp, hc]
      | error ce => cases ce <;> simp [applyOp, henc, hp, hc]
    | conflict => simp [applyOp, henc, hp]
    | other c => simp [applyOp, henc, hp]

theorem applyOp_ok_source {B : Type} (cl : Client B) (k : KindOps B)
    (b data : B) (henc : cl.encode b = .ok data)
    (h : (applyOp cl k b).1 = .ok ()) :
    cl.patch (k.name b) data = .ok (applyOp cl k b).2.1 ∨
      (cl.patch (k.name b) data = .error .notFound ∧
        cl.create b = .ok (applyOp cl k b).2.1) := by
  cases hp : cl.patch (k.name b) data with
  | ok out => left; simp [applyOp, henc, hp]
  | error e =>
    cases e with
    | notFound =>
      cases hc : cl.create b with
      | ok out => right; simp [applyOp, henc, hp, hc]
      | error ce => cases ce <;> simp [applyOp, henc, hp, hc] at h
    | conflict => simp [applyOp, henc, hp] at h
    | other c => simp [applyOp, henc, hp] at h

theorem applyOp_patch_conflict {B : Type} (cl : Client B) (k : KindOps B)
    (b data : B) (henc : cl.encode b = .ok data)
    (hp : cl.patch (k.name b) data = .error .conflict) :
    applyOp cl k b =
      (.error (.conflictAnnotated k.conflictDesc (k.name b)), b,
        [.patch (k.name b) data]) := by
  simp [applyOp, henc, hp]

theorem applyOp_create_conflict {B : Type} (cl : Client B) (k : KindOps B)
    (b data : B) (henc : cl.encode b = .ok data)
    (hp : cl.patch (k.name b) data = .error .notFound)
    (hc : cl.create b = .error .conflict) :
    applyOp cl k b =
      (.error (.conflictAnnotated k.conflictDesc (k.name b)), b,
        [.patch (k.name b) data, .create b]) := by
  simp [applyOp, henc, hp, hc]

theorem applyOp_error_body {B : Type} (cl : Client B) (k : KindOps B)
    (b : B) (e : ResErr) (h : (applyOp cl k b).1 = .error e) :
    (applyOp cl k b).2.1 = b := by
  cases henc : cl.encode b with
  | error c => simp [applyOp, henc]
  | ok data =>
    cases hp : cl.patch (k.name b) data with
    | ok out => simp [applyOp, henc, hp] at h
    | error pe =>
      cases pe with
      | notFound =>
        cases hc : cl.create b with
        | ok out => simp [applyOp, henc, hp, hc] at h
        | error ce => cases ce <;> simp [applyOp, henc, hp, hc]
      | conflict => simp [applyOp, henc, hp]
      | other c => simp [applyOp, henc, hp]

theorem getOp_notFound {B : Type} (cl : Client B) (k : KindOps B) (b : B)
    (h : cl.get (k.name b) = .error .notFound) :
    getOp cl k b = (.error (.notFound "k8s"), b, [.get (k.name b)]) := by
  simp [getOp, h]

theorem getOp_err {B : Type} (cl : Client B) (k : KindOps B) (b : B)
    (e : KErr) (hne : e ≠ KErr.notFound) (h : cl.get (k.name b) = .error e) :
    getOp cl k b = (.error (.tracedK e), b, [.get (k.name b)]) := by
  cases e with
  | notFound => exact absurd rfl hne
  | conflict => simp [getOp, h]
  | other c => simp [getOp, h]

theorem getOp_ok {B : Type} (cl : Client B) (k : KindOps B) (b res : B)
    (h : cl.get (k.name b) = .ok res) :
    getOp cl k b = (.ok (), res, [.get (k.name b)]) := by
  simp [getOp, h]

theorem deleteOp_notFound {B : Type} (cl : Client B) (k : KindOps B) (b : B)
    (h : cl.delete (k.name b) = .error .notFound) :
    deleteOp cl k b = (.error (.notFound k.deleteCtx), [.delete (k.name b)]) := by
  simp [deleteOp, h]

theorem deleteOp_err {B : Type} (cl : Client B) (k : KindOps B) (b : B)
    (e : KErr) (hne : e ≠ KErr.notFound) (h : cl.delete (k.name b) = .error e) :
    deleteOp cl k b = (.error (.tracedK e), [.delete (k.name b)]) := by
  cases e with
  | notFound => exact absurd rfl hne
  | conflict => simp [deleteOp, h]
  | other c => simp [deleteOp, h]

theorem deleteOp_ok {B : Type} (cl : Client B) (k : KindOps B) (b : B)
    (h : cl.delete (k.name b) = .ok ()) :
    deleteOp cl k b = (.ok (), [.delete (k.name b)]) := by
  simp [deleteOp, h]

theorem updateOp_notFound {B : Type} (cl : Client B) (b : B)
    (h : cl.update b = .error .notFound) :
    updateOp cl b = (.error (.notFound "updating cluster role"), b, [.update b]) := by
  simp [updateOp, h]

theorem updateOp_err {B : Type} (cl : Client B) (b : B)
    (e : KErr) (hne : e ≠ KErr.notFound) (h : cl.update b = .error e) :
    updateOp cl b = (.error (.tracedK e), b, [.update b]) := by
  cases e with
  | notFound => exact absurd rfl hne
  | conflict => simp [updateOp, h]
  | other c => simp [updateOp, h]

theorem updateOp_error_body {B : Type} (cl : Client B) (b : B) (e : ResErr)
    (h : (updateOp cl b).1 = .error e) : (updateOp cl b).2.1 = b := by
  cases hu : cl.update b with
  | ok out => simp [updateOp, hu] at h
  | error ue => cases ue <;> simp [updateOp, hu]

theorem updateOp_error_not_conflictError {B : Type} (cl : Client B) (b : B)
    (e : ResErr) (h : (updateOp cl b).1 = .error e) :
    e.isConflictError = false := by
  cases hu : cl.update b with
  | ok out => simp [updateOp, hu] at h
  | error ue =>
    cases ue <;> simp [updateOp, hu] at h <;>
      simp [← h, ResErr.isConflictError]

theorem pageToken_length (i : Nat) : (pageToken i).length = i := by
  simp [pageToken, String.length]

theorem pageToken_succ_ne_empty (i : Nat) : pageToken (i + 1) ≠ "" := by
  intro h
  simpa [pageToken, String.length] using congrArg String.length h

theorem listOnlyClient_list {B : Type}
    (f : String → Except KErr (List B × String)) :
    (listOnlyClient f).list = f := rfl

/-- A page sequence with every page successful. -/
def okPages {B : Type} (plain : List (List B)) :
    List (Except KErr (List B)) :=
  plain.map Except.ok

/-- The token-following Lister loop, run against the canonical paginated
endpoint with enough fuel, computes exactly the specification-side fold
of the page sequence. -/
theorem listLoop_chain {B : Type} (wrap : B → B)
    (pages : List (Except KErr (List B))) :
    ∀ fuel i acc, i < pages.length → pages.length - i ≤ fuel →
      listLoop (listOnlyClient (chainListFun pages)) wrap fuel (pageToken i) acc
        = some (pagesResult wrap acc (pages.drop i)) := by
  intro fuel
  induction fuel with
  | zero => intro i acc hi hf; omega
  | succ fuel ih =>
    intro i acc hi hf
    have hget : pages[i]? = some pages[i] := List.getElem?_eq_getElem hi
    have hdrop : pages.drop i = pages[i] :: pages.drop (i + 1) :=
      List.drop_eq_getElem_cons hi
    cases hpi : pages[i] with
    | error e =>
      rw [hpi] at hget
      have hcf : chainListFun pages (pageToken i) = .error e := by
        simp [chainListFun, pageToken_length, hget]
      simp [listLoop, listOnlyClient_list, hcf, hdrop, hpi, pagesResult]
    | ok items =>
      rw [hpi] at hget
      by_cases hlast : i + 1 = pages.length
      · have hcf : chainListFun pages (pageToken i) = .ok (items, "") := by
          simp [chainListFun, hget, pageToken_length, hlast]
        have hdrop1 : pages.drop (i + 1) = [] :=
          List.drop_eq_nil_of_le (by omega)
        simp [listLoop, listOnlyClient_list, hcf, hdrop, hpi, pagesResult,
          hdrop1]
      · have hcf : chainListFun pages (pageToken i) =
            .ok (items, pageToken (i + 1)) := by
          simp [chainListFun, hget, pageToken_length, hlast]
        have hrec := ih (i + 1) (acc ++ items.map wrap) (by omega) (by omega)
        simp [listLoop, listOnlyClient_list, hcf, pageToken_succ_ne_empty,
          hdrop, hpi, pagesResult, hrec]

theorem pagesResult_all_ok {B : Type} (wrap : B → B) :
    ∀ (plain : List (List B)) (acc : List B),
      pagesResult wrap acc (okPages plain)
        = .ok (acc ++ (plain.map (fun p => p.map wrap)).flatten) := by
  intro plain
  induction plain with
  | nil => intro acc; simp [okPages, pagesResult]
  | cons p rest ih =>
    intro acc
    simp only [okPages, List.map_cons, pagesResult] at *
    simp [ih, List.append_assoc]

theorem pagesResult_first_err {B : Type} (wrap : B → B) (e : KErr) :
    ∀ (firstPages : List (List B)) (rest : List (Except KErr (List B)))
      (acc : List B),
      pagesResult wrap acc (okPages firstPages ++ .error e :: rest)
        = .error (.tracedK e) := by
  intro firstPages
  induction firstPages with
  | nil => intro rest acc; simp [okPages, pagesResult]
  | cons p ps ih =>
    intro rest acc
    simp only [okPages, List.map_cons, List.cons_append, pagesResult] at *
    exact ih rest (acc ++ p.map wrap)

/-- Completeness of the Lister loop on an all-ok page chain. -/
theorem listLoop_complete {B : Type} (wrap : B → B)
    (plain : List (List B)) (hne : plain ≠ []) :
    listLoop (listOnlyClient (chainListFun (okPages plain))) wrap
        plain.length "" []
      = some (.ok ((plain.map (fun p => p.map wrap)).flatten)) := by
  have hpos : 0 < plain.length := List.length_pos.mpr hne
  have hchain := listLoop_chain wrap (okPages plain) plain.length 0 []
    (by simpa [okPages] using hpos) (by simp [okPages])
  rw [List.drop_zero, pagesResult_all_ok] at hchain
  simpa [pageToken] using hchain

/-- Error abortion of the Lister loop: the first error page makes the
whole listing fail with that error and no items. -/
theorem listLoop_err {B : Type} (wrap : B → B) (e : KErr)
    (firstPages : List (List B)) (rest : List (Except KErr (List B))) :
    listLoop
        (listOnlyClient (chainListFun (okPages firstPages ++ .error e :: rest)))
        wrap (okPages firstPages ++ .error e :: rest).length "" []
      = some (.error (.tracedK e)) := by
  have hpos : 0 < (okPages firstPages ++
      Except.error e :: rest).length := by simp
  have hchain := listLoop_chain wrap
    (okPages firstPages ++ .error e :: rest)
    (okPages firstPages ++ .error e :: rest).length 0 [] hpos (by simp)
  rw [List.drop_zero, pagesResult_first_err] at hchain
  simpa [pageToken] using hchain

theorem ensure_get_notFound (cl : Client ClusterRoleBody)
    (claims : List (Claim ClusterRoleBody)) (r : ClusterRoleBody)
    (hget : cl.get r.name = .error .notFound) :
    ClusterRole.Ensure cl claims r =
      ⟨[Cleanup.deleteByName r.name], (applyOp cl clusterRoleOps r).1,
        (applyOp cl clusterRoleOps r).2.1,
        Call.get r.name :: (applyOp cl clusterRoleOps r).2.2⟩ := by
  have hg : getOp cl clusterRoleOps r =
      (.error (.notFound "k8s"), r, [.get r.name]) := by
    apply getOp_notFound
    simpa [clusterRoleOps] using hget
  simp [ClusterRole.Ensure, hg, ResErr.isNotFound]

theorem ensure_get_err (cl : Client ClusterRoleBody)
    (claims : List (Claim ClusterRoleBody)) (r : ClusterRoleBody)
    (e : KErr) (hne : e ≠ KErr.notFound) (hget : cl.get r.name = .error e) :
    ClusterRole.Ensure cl claims r =
      ⟨[], .error (.annotated
          ("checking for existing cluster role " ++ r.name) (.tracedK e)),
        r, [.get r.name]⟩ := by
  have hg : getOp cl clusterRoleOps r =
      (.error (.tracedK e), r, [.get r.name]) := by
    apply getOp_err _ _ _ _ hne
    simpa [clusterRoleOps] using hget
  cases e with
  | notFound => exact absurd rfl hne
  | conflict => simp [ClusterRole.Ensure, hg, ResErr.isNotFound]
  | other c => simp [ClusterRole.Ensure, hg, ResErr.isNotFound]

theorem ensure_claims_fail (cl : Client ClusterRoleBody)
    (claims : List (Claim ClusterRoleBody)) (r ex : ClusterRoleBody)
    (hget : cl.get r.name = .ok ex)
    (hassert : runClaimsAssert claims ex = (false, none)) :
    ClusterRole.Ensure cl claims r =
      ⟨[], .error (.alreadyExists
          ("cluster role " ++ r.name ++ " not controlled by juju")),
        r, [.get r.name]⟩ := by
  have hg : getOp cl clusterRoleOps r = (.ok (), ex, [.get r.name]) := by
    apply getOp_ok
    simpa [clusterRoleOps] using hget
  simp [ClusterRole.Ensure, hg, hassert]

theorem ensure_claims_err (cl : Client ClusterRoleBody)
    (claims : List (Claim ClusterRoleBody)) (r ex : ClusterRoleBody)
    (bb : Bool) (ce : Nat) (hget : cl.get r.name = .ok ex)
    (hassert : runClaimsAssert claims ex = (bb, some ce)) :
    ClusterRole.Ensure cl claims r =
      ⟨[], .error (.annotated
          ("checking for existing cluster role " ++ ex.name)
          (.claimFailed ce)),
        r, [.get r.name]⟩ := by
  have hg : getOp cl clusterRoleOps r = (.ok (), ex, [.get r.name]) := by
    apply getOp_ok
    simpa [clusterRoleOps] using hget
  simp [ClusterRole.Ensure, hg, hassert, ResErr.isNotFound]

theorem ensure_update_path (cl : Client ClusterRoleBody)
    (claims : List (Claim ClusterRoleBody)) (r ex : ClusterRoleBody)
    (hget : cl.get r.name = .ok ex)
    (hassert : runClaimsAssert claims ex = (true, none)) :
    ClusterRole.Ensure cl claims r =
      ⟨[Cleanup.deleteByName r.name], (updateOp cl r).1,
        (updateOp cl r).2.1, Call.get r.name :: (updateOp cl r).2.2⟩ := by
  have hg : getOp cl clusterRoleOps r = (.ok (), ex, [.get r.name]) := by
    apply getOp_ok
    simpa [clusterRoleOps] using hget
  simp [ClusterRole.Ensure, hg, hassert]

/- ------------------------------------------------------------------ -/
/- Claim theorems.                                                     -/
/- ------------------------------------------------------------------ -/

/-- C6: for every body and every time `now`, ComputeStatus of Deployment
and DaemonSet returns Terminated with effective time equal to the body's
deletion timestamp (not `now`) whenever a deletion timestamp is present;
otherwise Active at `now` when the kind's readiness counters are equal
(`readyReplicas == replicas` for Deployment, `numberReady ==
desiredNumberScheduled` for DaemonSet), else Waiting at `now`; and no
state outside Active/Waiting/Terminated is ever returned. -/
theorem C6_status_state_machine (d : DeploymentBody) (ds : DaemonSetBody)
    (now : Int) :
    ((∀ a t, d.deletionTimestamp = some (a, t) →
        Deployment.ComputeStatus d now = ("", Status.terminated, t))
      ∧ (d.deletionTimestamp = none → d.readyReplicas = d.replicas →
        Deployment.ComputeStatus d now = ("", Status.active, now))
      ∧ (d.deletionTimestamp = none → d.readyReplicas ≠ d.replicas →
        Deployment.ComputeStatus d now = ("", Status.waiting, now))
      ∧ ((Deployment.ComputeStatus d now).2.1 = Status.active ∨
          (Deployment.ComputeStatus d now).2.1 = Status.waiting ∨
          (Deployment.ComputeStatus d now).2.1 = Status.terminated))
    ∧ ((∀ a t, ds.deletionTimestamp = some (a, t) →
        DaemonSet.ComputeStatus ds now = ("", Status.terminated, t))
      ∧ (ds.deletionTimestamp = none →
          ds.numberReady = ds.desiredNumberScheduled →
        DaemonSet.ComputeStatus ds now = ("", Status.active, now))
      ∧ (ds.deletionTimestamp = none →
          ds.numberReady ≠ ds.desiredNumberScheduled →
        DaemonSet.ComputeStatus ds now = ("", Status.waiting, now))
      ∧ ((DaemonSet.ComputeStatus ds now).2.1 = Status.active ∨
          (DaemonSet.ComputeStatus ds now).2.1 = Status.waiting ∨
          (DaemonSet.ComputeStatus ds now).2.1 = Status.terminated)) := by
  constructor
  · refine ⟨?_, ?_, ?_, ?_⟩
    · intro a t h; simp [Deployment.ComputeStatus, h]
    · intro h he; simp [Deployment.ComputeStatus, h, he]
    · intro h he; simp [Deployment.ComputeStatus, h, he]
    · cases h : d.deletionTimestamp with
      | some ts => simp [Deployment.ComputeStatus, h]
      | none =>
        by_cases he : d.readyReplicas = d.replicas <;>
          simp [Deployment.ComputeStatus, h, he]
  · refine ⟨?_, ?_, ?_, ?_⟩
    · intro a t h; simp [DaemonSet.ComputeStatus, h]
    · intro h he; simp [DaemonSet.ComputeStatus, h, he]
    · intro h he; simp [DaemonSet.ComputeStatus, h, he]
    · cases h : ds.deletionTimestamp with
      | some ts => simp [DaemonSet.ComputeStatus, h]
      | none =>
        by_cases he : ds.numberReady = ds.desiredNumberScheduled <;>
          simp [DaemonSet.ComputeStatus, h, he]

/-- Witness for C6: a ready Deployment is Active at the supplied time; a
DaemonSet with a deletion timestamp is Terminated at that timestamp. -/
theorem C6_status_state_machine_witness :
    Deployment.ComputeStatus ⟨"web", "ns", none, 3, 3, 0⟩ 5
        = ("", Status.active, 5)
    ∧ DaemonSet.ComputeStatus ⟨"agent", "ns", some (2, 9), 1, 4, 0⟩ 5
        = ("", Status.terminated, 9) := by
  constructor
  · exact (C6_status_state_machine ⟨"web", "ns", none, 3, 3, 0⟩
      ⟨"agent", "ns", some (2, 9), 1, 4, 0⟩ 5).1.2.1 rfl rfl
  · exact (C6_status_state_machine ⟨"web", "ns", none, 3, 3, 0⟩
      ⟨"agent", "ns", some (2, 9), 1, 4, 0⟩ 5).2.1 2 9 rfl

/-- C9: ClusterRole.ComputeStatus never returns Waiting: without a
deletion timestamp it returns Active at `now` regardless of any other
field of the body, and with one it returns Terminated at that
timestamp. -/
theorem C9_clusterRole_status (r rOther : ClusterRoleBody) (now : Int) :
    (r.deletionTimestamp = none →
        ClusterRole.ComputeStatus r now = ("", Status.active, now))
    ∧ (∀ a t, r.deletionTimestamp = some (a, t) →
        ClusterRole.ComputeStatus r now = ("", Status.terminated, t))
    ∧ (ClusterRole.ComputeStatus r now).2.1 ≠ Status.waiting
    ∧ (r.deletionTimestamp = none → rOther.deletionTimestamp = none →
        ClusterRole.ComputeStatus r now = ClusterRole.ComputeStatus rOther now) := by
  refine ⟨?_, ?_, ?_, ?_⟩
  · intro h; simp [ClusterRole.ComputeStatus, h]
  · intro a t h; simp [ClusterRole.ComputeStatus, h]
  · cases h : r.deletionTimestamp <;> simp [ClusterRole.ComputeStatus, h]
  · intro h h'; simp [ClusterRole.ComputeStatus, h, h']

/-- Witness for C9: a live ClusterRole (with nonzero other fields) is
Active at `now`; a deleted one is Terminated at its timestamp. -/
theorem C9_clusterRole_status_witness :
    ClusterRole.ComputeStatus ⟨"role", "", none, 7⟩ 4 = ("", Status.active, 4)
    ∧ ClusterRole.ComputeStatus ⟨"role", "", some (1, 2), 7⟩ 4
        = ("", Status.terminated, 2) := by
  constructor
  · exact (C9_clusterRole_status ⟨"role", "", none, 7⟩ ⟨"role", "", none, 7⟩ 4).1 rfl
  · exact (C9_clusterRole_status ⟨"role", "", some (1, 2), 7⟩
      ⟨"role", "", none, 7⟩ 4).2.1 1 2 rfl

/-- C10 as stated is false: `NewClusterRole` has no namespace argument
and stamps only the name; with a non-nil input body whose namespace is
"ns1", the constructed resource's ID carries "ns1", not the empty
namespace that the spec's Identity invariant requires for a
cluster-scoped kind — the namespace already present is not overwritten. -/
theorem C10_counterexample :
    ClusterRole.ID (NewClusterRole "r" (some ⟨"old", "ns1", none, 0⟩))
        = ⟨"ClusterRole", "r", "ns1"⟩
    ∧ ClusterRole.ID (NewClusterRole "r" (some ⟨"old", "ns1", none, 0⟩))
        ≠ ⟨"ClusterRole", "r", ""⟩ := by
  exact ⟨rfl, by decide⟩

/-- C10 (amended): NewDeployment and NewDaemonSet stamp the name and
namespace arguments onto the supplied initial body (nil or non-nil),
overwriting any name/namespace already present, so the constructed
resource's ID is (kind, name argument, namespace argument);
NewClusterRole stamps only the name (it takes no namespace argument), so
its ID's namespace is whatever the supplied body carries — empty when a
nil body is passed. -/
theorem C10_constructors (nspace name : String)
    (din : Option DeploymentBody) (dsin : Option DaemonSetBody)
    (crin : Option ClusterRoleBody) :
    Deployment.ID (NewDeployment nspace name din) = ⟨"Deployment", name, nspace⟩
    ∧ DaemonSet.ID (NewDaemonSet nspace name dsin) = ⟨"DaemonSet", name, nspace⟩
    ∧ ClusterRole.ID (NewClusterRole name crin)
        = ⟨"ClusterRole", name, (crin.getD ClusterRoleBody.goZero).nspace⟩
    ∧ (crin = none →
        ClusterRole.ID (NewClusterRole name crin) = ⟨"ClusterRole", name, ""⟩) := by
  refine ⟨rfl, rfl, rfl, ?_⟩
  intro h
  subst h
  rfl

/-- Witness for C10 (amended), at nil and non-nil inputs. -/
theorem C10_constructors_witness :
    ClusterRole.ID (NewClusterRole "r" none) = ⟨"ClusterRole", "r", ""⟩
    ∧ Deployment.ID (NewDeployment "ns" "web"
        (some ⟨"old", "oldns", none, 1, 2, 3⟩)) = ⟨"Deployment", "web", "ns"⟩ := by
  constructor
  · exact (C10_constructors "ns" "r" none none none).2.2.2 rfl
  · exact (C10_constructors "ns" "web" (some ⟨"old", "oldns", none, 1, 2, 3⟩)
      none none).1

/-- C7: for every kind, Get maps a not-found response to the
distinguished NotFoundError, propagates (traced) every other error, and
overwrites the local body with the server's response only on success;
Delete reports not-found as a NotFoundError rather than silent success. -/
theorem C7_get_delete_mapping :
    (∀ (cl : Client DeploymentBody) (d : DeploymentBody),
      (cl.get d.name = .error .notFound →
        Deployment.Get cl d = (.error (.notFound "k8s"), d, [.get d.name]))
      ∧ (∀ e, e ≠ KErr.notFound → cl.get d.name = .error e →
        Deployment.Get cl d = (.error (.tracedK e), d, [.get d.name]))
      ∧ (∀ res, cl.get d.name = .ok res →
        Deployment.Get cl d = (.ok (), res, [.get d.name]))
      ∧ (cl.delete d.name = .error .notFound →
        Deployment.Delete cl d =
          (.error (.notFound "k8s deployment for deletion"), [.delete d.name])
        ∧ (Deployment.Delete cl d).1 ≠ .ok ())
      ∧ (∀ e, e ≠ KErr.notFound → cl.delete d.name = .error e →
        Deployment.Delete cl d = (.error (.tracedK e), [.delete d.name])))
    ∧ (∀ (cl : Client DaemonSetBody) (ds : DaemonSetBody),
      (cl.get ds.name = .error .notFound →
        DaemonSet.Get cl ds = (.error (.notFound "k8s"), ds, [.get ds.name]))
      ∧ (∀ e, e ≠ KErr.notFound → cl.get ds.name = .error e →
        DaemonSet.Get cl ds = (.error (.tracedK e), ds, [.get ds.name]))
      ∧ (∀ res, cl.get ds.name = .ok res →
        DaemonSet.Get cl ds = (.ok (), res, [.get ds.name]))
      ∧ (cl.delete ds.name = .error .notFound →
        DaemonSet.Delete cl ds =
          (.error (.notFound "k8s daemon set for deletion"), [.delete ds.name])
        ∧ (DaemonSet.Delete cl ds).1 ≠ .ok ())
      ∧ (∀ e, e ≠ KErr.notFound → cl.delete ds.name = .error e →
        DaemonSet.Delete cl ds = (.error (.tracedK e), [.delete ds.name])))
    ∧ (∀ (cl : Client ClusterRoleBody) (r : ClusterRoleBody),
      (cl.get r.name = .error .notFound →
        ClusterRole.Get cl r = (.error (.notFound "k8s"), r, [.get r.name]))
      ∧ (∀ e, e ≠ KErr.notFound → cl.get r.name = .error e →
        ClusterRole.Get cl r = (.error (.tracedK e), r, [.get r.name]))
      ∧ (∀ res, cl.get r.name = .ok res →
        ClusterRole.Get cl r = (.ok (), res, [.get r.name]))
      ∧ (cl.delete r.name = .error .notFound →
        ClusterRole.Delete cl r =
          (.error (.notFound "k8s cluster role for deletion"), [.delete r.name])
        ∧ (ClusterRole.Delete cl r).1 ≠ .ok ())
      ∧ (∀ e, e ≠ KErr.notFound → cl.delete r.name = .error e →
        ClusterRole.Delete cl r = (.error (.tracedK e), [.delete r.name]))) := by
  refine ⟨fun cl d => ⟨?_, ?_, ?_, ?_, ?_⟩,
    fun cl ds => ⟨?_, ?_, ?_, ?_, ?_⟩, fun cl r => ⟨?_, ?_, ?_, ?_, ?_⟩⟩
  · intro h; exact getOp_notFound cl deploymentOps d h
  · intro e hne h; exact getOp_err cl deploymentOps d e hne h
  · intro res h; exact getOp_ok cl deploymentOps d res h
  · intro h
    have := deleteOp_notFound cl deploymentOps d h
    exact ⟨this, by rw [Deployment.Delete, this]; simp⟩
  · intro e hne h; exact deleteOp_err cl deploymentOps d e hne h
  · intro h; exact getOp_notFound cl daemonSetOps ds h
  · intro e hne h; exact getOp_err cl daemonSetOps ds e hne h
  · intro res h; exact getOp_ok cl daemonSetOps ds res h
  · intro h
    have := deleteOp_notFound cl daemonSetOps ds h
    exact ⟨this, by rw [DaemonSet.Delete, this]; simp⟩
  · intro e hne h; exact deleteOp_err cl daemonSetOps ds e hne h
  · intro h; exact getOp_notFound cl clusterRoleOps r h
  · intro e hne h; exact getOp_err cl clusterRoleOps r e hne h
  · intro res h; exact getOp_ok cl clusterRoleOps r res h
  · intro h
    have := deleteOp_notFound cl clusterRoleOps r h
    exact ⟨this, by rw [ClusterRole.Delete, this]; simp⟩
  · intro e hne h; exact deleteOp_err cl clusterRoleOps r e hne h

/-- Concrete client for the C7 witness: get succeeds with a refreshed
body, delete reports not-found. -/
def c7client : Client DeploymentBody :=
  { encode := fun b => .ok b
    patch := fun _ _ => .error (.other 1)
    create := fun _ => .error (.other 1)
    get := fun _ => .ok ⟨"web", "ns", none, 2, 2, 5⟩
    update := fun b => .ok b
    delete := fun _ => .error .notFound
    list := fun _ => .ok ([], "") }

/-- Witness for C7: Get overwrites the body on success; Delete on a
missing object reports the NotFoundError. -/
theorem C7_get_delete_mapping_witness :
    Deployment.Get c7client ⟨"web", "ns", none, 0, 0, 0⟩
        = (.ok (), ⟨"web", "ns", none, 2, 2, 5⟩, [.get "web"])
    ∧ Deployment.Delete c7client ⟨"web", "ns", none, 0, 0, 0⟩
        = (.error (.notFound "k8s deployment for deletion"), [.delete "web"]) := by
  constructor
  · exact (C7_get_delete_mapping.1 c7client ⟨"web", "ns", none, 0, 0, 0⟩).2.2.1
      ⟨"web", "ns", none, 2, 2, 5⟩ rfl
  · exact ((C7_get_delete_mapping.1 c7client
      ⟨"web", "ns", none, 0, 0, 0⟩).2.2.2.1 rfl).1

/-- C8 as stated is false: Clone is the Go struct copy `clone := *d`, so
a pointer-typed sub-field of the body — here the deletion-timestamp
pointer at heap address 7 — is shared between the original and the
clone; the clone's body is not fully distinct from the original's. -/
theorem C8_counterexample :
    ptrShared ⟨"web", "ns", some (7, 3), 1, 1, 0⟩
      (Deployment.Clone ⟨"web", "ns", some (7, 3), 1, 1, 0⟩) :=
  ⟨7, 3, 3, rfl, rfl⟩

/-- C8 (amended): Clone returns a struct copy of the Resource — same
client handle, body equal to the original's, with pointer-typed
sub-fields shared rather than deep-copied; lifecycle calls on the clone
(e.g. Get) replace the clone's body wholesale with the server's
response, and never write through the shared pointers, so the original
Resource's body value is left unchanged. -/
theorem C8_clone_struct_copy (d : DeploymentBody) (ds : DaemonSetBody)
    (r : ClusterRoleBody) (cld : Client DeploymentBody)
    (clr : Client ClusterRoleBody) :
    Deployment.Clone d = d
    ∧ (∀ a t, d.deletionTimestamp = some (a, t) →
        (Deployment.Clone d).deletionTimestamp = some (a, t))
    ∧ DaemonSet.Clone ds = ds
    ∧ ClusterRole.Clone r = r
    ∧ (∀ res, cld.get d.name = .ok res →
        (Deployment.Get cld (Deployment.Clone d)).2.1 = res)
    ∧ (∀ res, clr.get r.name = .ok res →
        (ClusterRole.Get clr (ClusterRole.Clone r)).2.1 = res) := by
  refine ⟨rfl, ?_, rfl, rfl, ?_, ?_⟩
  · intro a t h; exact h
  · intro res h
    rw [Deployment.Clone, Deployment.Get, getOp_ok cld deploymentOps d res h]
  · intro res h
    rw [ClusterRole.Clone, ClusterRole.Get, getOp_ok clr clusterRoleOps r res h]

/-- Witness for C8 (amended): cloning a Deployment with a live deletion
pointer keeps the pointer, and Get on the clone yields the server's
body. -/
theorem C8_clone_struct_copy_witness :
    (Deployment.Clone ⟨"web", "ns", some (7, 3), 1, 1, 0⟩).deletionTimestamp
        = some (7, 3)
    ∧ (Deployment.Get c7client
        (Deployment.Clone ⟨"web", "ns", none, 0, 0, 0⟩)).2.1
        = ⟨"web", "ns", none, 2, 2, 5⟩ := by
  constructor
  · exact (C8_clone_struct_copy ⟨"web", "ns", some (7, 3), 1, 1, 0⟩
      ⟨"", "", none, 0, 0, 0⟩ ⟨"", "", none, 0⟩ c7client
      (listOnlyClient (fun _ => .error (.other 0)))).2.1 7 3 rfl
  · exact (C8_clone_struct_copy ⟨"web", "ns", none, 0, 0, 0⟩
      ⟨"", "", none, 0, 0, 0⟩ ⟨"", "", none, 0⟩ c7client
      (listOnlyClient (fun _ => .error (.other 0)))).2.2.2.2.1
      ⟨"web", "ns", none, 2, 2, 5⟩ rfl

/-- C1: for every kind, Apply (with the desired body successfully
encoded) first issues one strategic-merge patch addressed by the
resource's name; exactly when that patch fails with not-found it issues
exactly one create call and no further patch attempt; and on success the
local body is replaced wholesale with the body the server returned, from
whichever of patch or create succeeded. -/
theorem C1_apply_patch_or_create :
    (∀ (cl : Client DeploymentBody) (d data : DeploymentBody),
      cl.encode d = .ok data →
      (Deployment.Apply cl d).2.2.head? = some (.patch d.name data)
      ∧ (cl.patch d.name data = .error .notFound →
          (Deployment.Apply cl d).2.2 = [.patch d.name data, .create d])
      ∧ (∀ e, e ≠ KErr.notFound → cl.patch d.name data = .error e →
          (Deployment.Apply cl d).2.2 = [.patch d.name data])
      ∧ (∀ out, cl.patch d.name data = .ok out →
          Deployment.Apply cl d = (.ok (), out, [.patch d.name data]))
      ∧ (∀ out, cl.patch d.name data = .error .notFound →
          cl.create d = .ok out →
          Deployment.Apply cl d = (.ok (), out, [.patch d.name data, .create d]))
      ∧ ((Deployment.Apply cl d).1 = .ok () →
          cl.patch d.name data = .ok (Deployment.Apply cl d).2.1 ∨
            (cl.patch d.name data = .error .notFound ∧
              cl.create d = .ok (Deployment.Apply cl d).2.1)))
    ∧ (∀ (cl : Client DaemonSetBody) (ds data : DaemonSetBody),
      cl.encode ds = .ok data →
      (DaemonSet.Apply cl ds).2.2.head? = some (.patch ds.name data)
      ∧ (cl.patch ds.name data = .error .notFound →
          (DaemonSet.Apply cl ds).2.2 = [.patch ds.name data, .create ds])
      ∧ (∀ e, e ≠ KErr.notFound → cl.patch ds.name data = .error e →
          (DaemonSet.Apply cl ds).2.2 = [.patch ds.name data])
      ∧ (∀ out, cl.patch ds.name data = .ok out →
          DaemonSet.Apply cl ds = (.ok (), out, [.patch ds.name data]))
      ∧ (∀ out, cl.patch ds.name data = .error .notFound →
          cl.create ds = .ok out →
          DaemonSet.Apply cl ds = (.ok (), out, [.patch ds.name data, .create ds]))
      ∧ ((DaemonSet.Apply cl ds).1 = .ok () →
          cl.patch ds.name data = .ok (DaemonSet.Apply cl ds).2.1 ∨
            (cl.patch ds.name data = .error .notFound ∧
              cl.create ds = .ok (DaemonSet.Apply cl ds).2.1)))
    ∧ (∀ (cl : Client ClusterRoleBody) (r data : ClusterRoleBody),
      cl.encode r = .ok data →
      (ClusterRole.Apply cl r).2.2.head? = some (.patch r.name data)
      ∧ (cl.patch r.name data = .error .notFound →
          (ClusterRole.Apply cl r).2.2 = [.patch r.name data, .create r])
      ∧ (∀ e, e ≠ KErr.notFound → cl.patch r.name data = .error e →
          (ClusterRole.Apply cl r).2.2 = [.patch r.name data])
      ∧ (∀ out, cl.patch r.name data = .ok out →
          ClusterRole.Apply cl r = (.ok (), out, [.patch r.name data]))
      ∧ (∀ out, cl.patch r.name data = .error .notFound →
          cl.create r = .ok out →
          ClusterRole.Apply cl r = (.ok (), out, [.patch r.name data, .create r]))
      ∧ ((ClusterRole.Apply cl r).1 = .ok () →
          cl.patch r.name data = .ok (ClusterRole.Apply cl r).2.1 ∨
            (cl.patch r.name data = .error .notFound ∧
              cl.create r = .ok (ClusterRole.Apply cl r).2.1))) := by
  refine ⟨fun cl d data henc => ⟨?_, ?_, ?_, ?_, ?_, ?_⟩,
    fun cl ds data henc => ⟨?_, ?_, ?_, ?_, ?_, ?_⟩,
    fun cl r data henc => ⟨?_, ?_, ?_, ?_, ?_, ?_⟩⟩
  · exact applyOp_head_call cl deploymentOps d data henc
  · intro h; exact applyOp_patch_notFound_calls cl deploymentOps d data henc h
  · intro e hne h; exact applyOp_patch_err_calls cl deploymentOps d data e henc hne h
  · intro out h; exact applyOp_patch_ok cl deploymentOps d data out henc h
  · intro out h hc
    exact applyOp_patch_notFound_create_ok cl deploymentOps d data out henc h hc
  · intro h; exact applyOp_ok_source cl deploymentOps d data henc h
  · exact applyOp_head_call cl daemonSetOps ds data henc
  · intro h; exact applyOp_patch_notFound_calls cl daemonSetOps ds data henc h
  · intro e hne h; exact applyOp_patch_err_calls cl daemonSetOps ds data e henc hne h
  · intro out h; exact applyOp_patch_ok cl daemonSetOps ds data out henc h
  · intro out h hc
    exact applyOp_patch_notFound_create_ok cl daemonSetOps ds data out henc h hc
  · intro h; exact applyOp_ok_source cl daemonSetOps ds data henc h
  · exact applyOp_head_call cl clusterRoleOps r data henc
  · intro h; exact applyOp_patch_notFound_calls cl clusterRoleOps r data henc h
  · intro e hne h; exact applyOp_patch_err_calls cl clusterRoleOps r data e henc hne h
  · intro out h; exact applyOp_patch_ok cl clusterRoleOps r data out henc h
  · intro out h hc
    exact applyOp_patch_notFound_create_ok cl clusterRoleOps r data out henc h hc
  · intro h; exact applyOp_ok_source cl clusterRoleOps r data henc h

/-- Concrete client for the C1 witness: the object does not exist, so
the patch reports not-found and the create succeeds with the server's
materialized body. -/
def c1client : Client DeploymentBody :=
  { encode := fun b => .ok b
    patch := fun _ _ => .error .notFound
    create := fun b => .ok { b with payload := 9 }
    get := fun _ => .error .notFound
    update := fun b => .ok b
    delete := fun _ => .ok ()
    list := fun _ => .ok ([], "") }

/-- Witness for C1: on a nonexistent Deployment, Apply issues the patch,
then exactly one create, and ends with the server's created body. -/
theorem C1_apply_patch_or_create_witness :
    Deployment.Apply c1client ⟨"web", "ns", none, 0, 0, 0⟩
      = (.ok (), ⟨"web", "ns", none, 0, 0, 9⟩,
        [.patch "web" ⟨"web", "ns", none, 0, 0, 0⟩,
          .create ⟨"web", "ns", none, 0, 0, 0⟩]) :=
  (C1_apply_patch_or_create.1 c1client ⟨"web", "ns", none, 0, 0, 0⟩
    ⟨"web", "ns", none, 0, 0, 0⟩ rfl).2.2.2.2.1
    ⟨"web", "ns", none, 0, 0, 9⟩ rfl rfl

/-- A client whose update endpoint reports an optimistic-concurrency
conflict, for the C2 counterexample. -/
def c2updateConflictClient : Client ClusterRoleBody :=
  { encode := fun b => .ok b
    patch := fun _ _ => .error .conflict
    create := fun _ => .error .conflict
    get := fun _ => .ok ⟨"r", "", none, 0⟩
    update := fun _ => .error .conflict
    delete := fun _ => .ok ()
    list := fun _ => .ok ([], "") }

/-- C2 as stated is false for Update: `ClusterRole.Update` has no
conflict mapping — a conflict response from the update call is returned
as a plain traced error, not as the ConflictError annotated with the
resource's kind and name. -/
theorem C2_counterexample :
    (ClusterRole.Update c2updateConflictClient ⟨"r", "", none, 0⟩).1
        = .error (.tracedK .conflict)
    ∧ returnsConflictError
        (ClusterRole.Update c2updateConflictClient ⟨"r", "", none, 0⟩).1
      = false := by
  exact ⟨rfl, rfl⟩

/-- C2 (amended): when the server reports a conflict to the patch (or to
the create after a not-found patch), Apply returns the ConflictError
annotated with the kind string and the resource's name, for all three
kinds; ClusterRole.Update propagates a conflict as a plain traced error
(it maps only not-found) and never returns the ConflictError; and on
every error path of Apply and Update the local body is left completely
unchanged. -/
theorem C2_conflict_surfacing :
    (∀ (cl : Client DeploymentBody) (d data : DeploymentBody),
      cl.encode d = .ok data →
      (cl.patch d.name data = .error .conflict →
        Deployment.Apply cl d =
          (.error (.conflictAnnotated "deployment" d.name), d,
            [.patch d.name data]))
      ∧ (cl.patch d.name data = .error .notFound →
          cl.create d = .error .conflict →
        Deployment.Apply cl d =
          (.error (.conflictAnnotated "deployment" d.name), d,
            [.patch d.name data, .create d])))
    ∧ (∀ (cl : Client DeploymentBody) (d : DeploymentBody) (e : ResErr),
        (Deployment.Apply cl d).1 = .error e → (Deployment.Apply cl d).2.1 = d)
    ∧ (∀ (cl : Client DaemonSetBody) (ds data : DaemonSetBody),
      cl.encode ds = .ok data →
      (cl.patch ds.name data = .error .conflict →
        DaemonSet.Apply cl ds =
          (.error (.conflictAnnotated "daemon set" ds.name), ds,
            [.patch ds.name data]))
      ∧ (cl.patch ds.name data = .error .notFound →
          cl.create ds = .error .conflict →
        DaemonSet.Apply cl ds =
          (.error (.conflictAnnotated "daemon set" ds.name), ds,
            [.patch ds.name data, .create ds])))
    ∧ (∀ (cl : Client DaemonSetBody) (ds : DaemonSetBody) (e : ResErr),
        (DaemonSet.Apply cl ds).1 = .error e → (DaemonSet.Apply cl ds).2.1 = ds)
    ∧ (∀ (cl : Client ClusterRoleBody) (r data : ClusterRoleBody),
      cl.encode r = .ok data →
      (cl.patch r.name data = .error .conflict →
        ClusterRole.Apply cl r =
          (.error (.conflictAnnotated "cluster role" r.name), r,
            [.patch r.name data]))
      ∧ (cl.patch r.name data = .error .notFound →
          cl.create r = .error .conflict →
        ClusterRole.Apply cl r =
          (.error (.conflictAnnotated "cluster role" r.name), r,
            [.patch r.name data, .create r])))
    ∧ (∀ (cl : Client ClusterRoleBody) (r : ClusterRoleBody) (e : ResErr),
        (ClusterRole.Apply cl r).1 = .error e → (ClusterRole.Apply cl r).2.1 = r)
    ∧ (∀ (cl : Client ClusterRoleBody) (r : ClusterRoleBody),
        cl.update r = .error .conflict →
        ClusterRole.Update cl r = (.error (.tracedK .conflict), r, [.update r]))
    ∧ (∀ (cl : Client ClusterRoleBody) (r : ClusterRoleBody) (e : ResErr),
        (ClusterRole.Update cl r).1 = .error e →
        (ClusterRole.Update cl r).2.1 = r ∧ e.isConflictError = false) := by
  refine ⟨fun cl d data henc => ⟨?_, ?_⟩, ?_,
    fun cl ds data henc => ⟨?_, ?_⟩, ?_,
    fun cl r data henc => ⟨?_, ?_⟩, ?_, ?_, ?_⟩
  · intro h; exact applyOp_patch_conflict cl deploymentOps d data henc h
  · intro h hc; exact applyOp_create_conflict cl deploymentOps d data henc h hc
  · intro cl d e h; exact applyOp_error_body cl deploymentOps d e h
  · intro h; exact applyOp_patch_conflict cl daemonSetOps ds data henc h
  · intro h hc; exact applyOp_create_conflict cl daemonSetOps ds data henc h hc
  · intro cl ds e h; exact applyOp_error_body cl daemonSetOps ds e h
  · intro h; exact applyOp_patch_conflict cl clusterRoleOps r data henc h
  · intro h hc; exact applyOp_create_conflict cl clusterRoleOps r data henc h hc
  · intro cl r e h; exact applyOp_error_body cl clusterRoleOps r e h
  · intro cl r h
    exact updateOp_err cl r .conflict (by intro hh; cases hh) h
  · intro cl r e h
    exact ⟨updateOp_error_body cl r e h, updateOp_error_not_conflictError cl r e h⟩

/-- Concrete client for the C2 witness: every mutating call reports an
optimistic-concurrency conflict. -/
def c2client : Client DeploymentBody :=
  { encode := fun b => .ok b
    patch := fun _ _ => .error .conflict
    create := fun _ => .error .conflict
    get := fun _ => .error .conflict
    update := fun _ => .error .conflict
    delete := fun _ => .error .conflict
    list := fun _ => .error .conflict }

/-- Witness for C2 (amended): a conflicting patch yields the annotated
ConflictError and leaves the body untouched. -/
theorem C2_conflict_surfacing_witness :
    Deployment.Apply c2client ⟨"web", "ns", none, 1, 2, 3⟩
      = (.error (.conflictAnnotated "deployment" "web"),
        ⟨"web", "ns", none, 1, 2, 3⟩,
        [.patch "web" ⟨"web", "ns", none, 1, 2, 3⟩]) :=
  (C2_conflict_surfacing.1 c2client ⟨"web", "ns", none, 1, 2, 3⟩
    ⟨"web", "ns", none, 1, 2, 3⟩ rfl).1 rfl

/-- C3: Ensure on a ClusterRole whose object exists (Get succeeds) with
claims that are not satisfied (verdict false, no error) returns the
AlreadyExistsError naming the object, issues zero mutating calls (its
only call is the existence Get), returns an empty cleanup list, and
leaves the local body unchanged. -/
theorem C3_ensure_claim_gate (cl : Client ClusterRoleBody)
    (claims : List (Claim ClusterRoleBody)) (r ex : ClusterRoleBody)
    (hget : cl.get r.name = .ok ex)
    (hassert : runClaimsAssert claims ex = (false, none)) :
    (ClusterRole.Ensure cl claims r).result
        = .error (.alreadyExists
          ("cluster role " ++ r.name ++ " not controlled by juju"))
    ∧ (ClusterRole.Ensure cl claims r).cleanups = []
    ∧ (ClusterRole.Ensure cl claims r).calls = [.get r.name]
    ∧ (∀ c ∈ (ClusterRole.Ensure cl claims r).calls, c.isMutating = false)
    ∧ (ClusterRole.Ensure cl claims r).body = r := by
  have h := ensure_claims_fail cl claims r ex hget hassert
  rw [h]
  refine ⟨rfl, rfl, rfl, ?_, rfl⟩
  intro c hc
  simp only [List.mem_singleton] at hc
  rw [hc]
  rfl

/-- Concrete client for the C3 witness: the object exists on the
server. -/
def c3client : Client ClusterRoleBody :=
  { encode := fun b => .ok b
    patch := fun _ _ => .error (.other 1)
    create := fun _ => .error (.other 1)
    get := fun _ => .ok ⟨"r", "", none, 5⟩
    update := fun _ => .error (.other 1)
    delete := fun _ => .ok ()
    list := fun _ => .ok ([], "") }

/-- Witness for C3: an always-failing claim makes Ensure stop with
AlreadyExists, an empty cleanup list, and only the existence Get
issued. -/
theorem C3_ensure_claim_gate_witness :
    (ClusterRole.Ensure c3client [fun _ => (false, none)] ⟨"r", "", none, 0⟩).result
        = .error (.alreadyExists ("cluster role " ++ "r" ++ " not controlled by juju"))
    ∧ (ClusterRole.Ensure c3client [fun _ => (false, none)] ⟨"r", "", none, 0⟩).cleanups
        = []
    ∧ (ClusterRole.Ensure c3client [fun _ => (false, none)] ⟨"r", "", none, 0⟩).calls
        = [.get "r"] := by
  have h := C3_ensure_claim_gate c3client [fun _ => (false, none)]
    ⟨"r", "", none, 0⟩ ⟨"r", "", none, 5⟩ rfl rfl
  exact ⟨h.1, h.2.1, h.2.2.1⟩

/-- C4: at Ensure's proceed decision: when the existence Get reported
not-found, Ensure performs Apply (the create path); when the object was
found and the claims passed, Ensure performs Update — and Update maps a
not-found response to an error, never falling back to create; in both
branches the delete rollback closure is in the cleanup list before the
mutating call, and that cleanup list is returned whatever the mutating
call's outcome. -/
theorem C4_ensure_proceed (cl : Client ClusterRoleBody)
    (claims : List (Claim ClusterRoleBody)) (r ex : ClusterRoleBody) :
    (cl.get r.name = .error .notFound →
      ClusterRole.Ensure cl claims r =
        ⟨[Cleanup.deleteByName r.name], (ClusterRole.Apply cl r).1,
          (ClusterRole.Apply cl r).2.1,
          Call.get r.name :: (ClusterRole.Apply cl r).2.2⟩)
    ∧ (cl.get r.name = .ok ex → runClaimsAssert claims ex = (true, none) →
      ClusterRole.Ensure cl claims r =
        ⟨[Cleanup.deleteByName r.name], (ClusterRole.Update cl r).1,
          (ClusterRole.Update cl r).2.1,
          Call.get r.name :: (ClusterRole.Update cl r).2.2⟩)
    ∧ (cl.update r = .error .notFound →
      ClusterRole.Update cl r =
        (.error (.notFound "updating cluster role"), r, [.update r])) := by
  refine ⟨?_, ?_, ?_⟩
  · intro h
    exact ensure_get_notFound cl claims r h
  · intro h1 h2
    exact ensure_update_path cl claims r ex h1 h2
  · intro h
    exact updateOp_notFound cl r h

/-- Concrete client for the C4 witness: the object is missing, so Ensure
takes the Apply (create) path; the create itself fails, yet the cleanup
list is still returned populated. -/
def c4client : Client ClusterRoleBody :=
  { encode := fun b => .ok b
    patch := fun _ _ => .error .notFound
    create := fun _ => .error (.other 7)
    get := fun _ => .error .notFound
    update := fun b => .ok b
    delete := fun _ => .ok ()
    list := fun _ => .ok ([], "") }

/-- Witness for C4: with a not-found existence Get, Ensure registers the
delete rollback and performs Apply; the cleanup list is returned even
though the create failed. -/
theorem C4_ensure_proceed_witness :
    ClusterRole.Ensure c4client [] ⟨"r", "", none, 0⟩ =
      ⟨[Cleanup.deleteByName "r"],
        (ClusterRole.Apply c4client ⟨"r", "", none, 0⟩).1,
        (ClusterRole.Apply c4client ⟨"r", "", none, 0⟩).2.1,
        Call.get "r" :: (ClusterRole.Apply c4client ⟨"r", "", none, 0⟩).2.2⟩
    ∧ (ClusterRole.Apply c4client ⟨"r", "", none, 0⟩).1
        = .error (.tracedK (.other 7)) := by
  constructor
  · exact (C4_ensure_proceed c4client [] ⟨"r", "", none, 0⟩
      ⟨"r", "", none, 0⟩).1 rfl
  · rfl

/-- C5: for every sequence of pages chained by continuation tokens and
terminated by an empty token, the Listers return exactly the
concatenation of all pages' items in page order, each wrapped via the
kind's constructor with the supplied client handle and namespace; and
any page's error aborts the whole listing with that error (traced) and
no partial item list. -/
theorem C5_listers_pagination :
    (∀ (plain : List (List DeploymentBody)) (nspace : String), plain ≠ [] →
      ListDeployments (listOnlyClient (chainListFun (okPages plain)))
          nspace plain.length ""
        = some (.ok ((plain.map (fun p =>
            p.map (fun item => NewDeployment nspace item.name (some item)))).flatten)))
    ∧ (∀ (firstPages : List (List DeploymentBody)) (e : KErr)
        (rest : List (Except KErr (List DeploymentBody))) (nspace : String),
      ListDeployments
          (listOnlyClient (chainListFun (okPages firstPages ++ .error e :: rest)))
          nspace (okPages firstPages ++ .error e :: rest).length ""
        = some (.error (.tracedK e)))
    ∧ (∀ (plain : List (List DaemonSetBody)) (nspace : String), plain ≠ [] →
      ListDaemonSets (listOnlyClient (chainListFun (okPages plain)))
          nspace plain.length ""
        = some (.ok ((plain.map (fun p =>
            p.map (fun item => NewDaemonSet nspace item.name (some item)))).flatten)))
    ∧ (∀ (firstPages : List (List DaemonSetBody)) (e : KErr)
        (rest : List (Except KErr (List DaemonSetBody))) (nspace : String),
      ListDaemonSets
          (listOnlyClient (chainListFun (okPages firstPages ++ .error e :: rest)))
          nspace (okPages firstPages ++ .error e :: rest).length ""
        = some (.error (.tracedK e)))
    ∧ (∀ (plain : List (List ClusterRoleBody)), plain ≠ [] →
      ListClusterRoles (listOnlyClient (chainListFun (okPages plain)))
          plain.length ""
        = some (.ok ((plain.map (fun p =>
            p.map (fun item => NewClusterRole item.name (some item)))).flatten)))
    ∧ (∀ (firstPages : List (List ClusterRoleBody)) (e : KErr)
        (rest : List (Except KErr (List ClusterRoleBody))),
      ListClusterRoles
          (listOnlyClient (chainListFun (okPages firstPages ++ .error e :: rest)))
          (okPages firstPages ++ .error e :: rest).length ""
        = some (.error (.tracedK e))) := by
  refine ⟨?_, ?_, ?_, ?_, ?_, ?_⟩
  · intro plain nspace h
    exact listLoop_complete _ plain h
  · intro firstPages e rest nspace
    exact listLoop_err _ e firstPages rest
  · intro plain nspace h
    exact listLoop_complete _ plain h
  · intro firstPages e rest nspace
    exact listLoop_err _ e firstPages rest
  · intro plain h
    exact listLoop_complete _ plain h
  · intro firstPages e rest
    exact listLoop_err _ e firstPages rest

/-- Witness for C5: the spec's stub scenario — 3 pages of sizes
{2, 2, 1} chained by continuation tokens then an empty token — yields
exactly the 5 items in page order, each restamped with the supplied
namespace. -/
theorem C5_listers_pagination_witness :
    ListDeployments (listOnlyClient (chainListFun (okPages
        [[⟨"d1", "x", none, 0, 0, 1⟩, ⟨"d2", "x", none, 0, 0, 2⟩],
          [⟨"d3", "x", none, 0, 0, 3⟩, ⟨"d4", "x", none, 0, 0, 4⟩],
          [⟨"d5", "x", none, 0, 0, 5⟩]]))) "ns" 3 ""
      = some (.ok
        [⟨"d1", "ns", none, 0, 0, 1⟩, ⟨"d2", "ns", none, 0, 0, 2⟩,
          ⟨"d3", "ns", none, 0, 0, 3⟩, ⟨"d4", "ns", none, 0, 0, 4⟩,
          ⟨"d5", "ns", none, 0, 0, 5⟩]) := by
  have h := C5_listers_pagination.1
    [[⟨"d1", "x", none, 0, 0, 1⟩, ⟨"d2", "x", none, 0, 0, 2⟩],
      [⟨"d3", "x", none, 0, 0, 3⟩, ⟨"d4", "x", none, 0, 0, 4⟩],
      [⟨"d5", "x", none, 0, 0, 5⟩]] "ns" (by decide)
  exact h.trans (by decide)

end Resources
